import Mathlib

set_option maxRecDepth 4000

/-!
Verification of the PemaList document generator (`src/app.py`).

The Python program is shallowly embedded: a pandas `DataFrame` becomes a
list of column headers together with rows (association lists from header
to optional cell value; `none` models a pandas NaN / missing value),
Python strings become Lean `String`s, and the Word/Excel output documents
become explicit lists of events / rows.  Fallible request processing is
embedded with `Except`.  Line numbers in doc comments refer to
`src/app.py`.
-/

namespace PemaList

/-- A spreadsheet cell: `none` models pandas NaN (a missing value). -/
abbrev Cell := Option String

/-- One uploaded record (a pandas row): header name ↦ cell value. -/
abbrev Row := List (String × Cell)

/-- A pandas `DataFrame`: ordered column headers plus the rows. -/
structure DataFrame where
  headers : List String
  rows : List Row
deriving Repr, DecidableEq

/-- Cell access `row[h]` (a missing key behaves as NaN). -/
def Row.get (r : Row) (h : String) : Cell :=
  (r.lookup h).join

/-- The series `df[h]`: the list of cells of column `h`. -/
def DataFrame.col (df : DataFrame) (h : String) : List Cell :=
  df.rows.map (fun r => r.get h)

/-- Python truthiness of an `Optional[str]`: `None` and `""` are falsy.
Used wherever the source writes `if not column_name:` and the like. -/
def truthy : Option String → Bool
  | none => false
  | some s => !(s == "")

/-- Python `str(x)` applied to a cell: a NaN prints as `"nan"`. -/
def cellStr (c : Cell) : String :=
  match c with
  | none => "nan"
  | some s => s

/-- Python `str.lower()`, embedded per character via `Char.toLower` (the
headers and aliases of this program are CJK or ASCII, where this agrees). -/
def strLower (s : String) : String :=
  String.mk (s.toList.map Char.toLower)

/-- Boolean test that `p` is a prefix of the second character list. -/
def charsPrefixOf : List Char → List Char → Bool
  | [], _ => true
  | _ :: _, [] => false
  | a :: as, b :: bs => a == b && charsPrefixOf as bs

/-- Boolean test that `p` occurs contiguously in the second list: Python's
`p in s` on strings, at the character-list level. -/
def charsSubOf (p : List Char) : List Char → Bool
  | [] => charsPrefixOf p []
  | c :: t => charsPrefixOf p (c :: t) || charsSubOf p t

/-- Python `pat in hay` (substring containment on strings). -/
def strContainsSub (hay pat : String) : Bool :=
  charsSubOf pat.toList hay.toList

/-- Lines 79–94, `find_matching_column(df, keywords)`: lowercase every
keyword, then return the first column header whose lowercased text contains
one of them as a substring (`None` otherwise).  The Python single-string
argument form is modelled by a one-element list. -/
def find_matching_column (df : DataFrame) (keywords : List String) : Option String :=
  let kws := keywords.map strLower
  df.headers.find? (fun col => kws.any (fun k => strContainsSub (strLower col) k))

/-- The loop predicate of `find_matching_column`, named for the proofs. -/
def headerPred (keywords : List String) (col : String) : Bool :=
  (keywords.map strLower).any (fun k => strContainsSub (strLower col) k)

/-- Specification-side matching relation: the lowercased header contains some
lowercased keyword as a contiguous substring. -/
def HeaderMatch (keywords : List String) (col : String) : Prop :=
  ∃ k ∈ keywords, ∃ u v, (strLower col).toList = u ++ (strLower k).toList ++ v

/-- Lines 132–136, `estimate_line_count(text, max_chars_per_line)`: `none`
models Python `None`; `if not text: return 1` also fires on `""`.  Python
`//` is floor division, embedded as `Int.fdiv`; the source computes
`-(-len(text) // max_chars_per_line)` (ceiling by negated floor division). -/
def estimate_line_count (text : Option String) (max_chars_per_line : Nat) : Int :=
  match text with
  | none => 1
  | some t =>
      if t.length = 0 then 1
      else -(Int.fdiv (-(t.length : Int)) (max_chars_per_line : Int))

/-- Constant `Config.LINES_PER_PAGE` (line 21). -/
def LINES_PER_PAGE : Nat := 30

/-- Constant `Config.START_LINE` (line 22). -/
def START_LINE : Nat := 20

/-- Constant `Config.MAX_CHARS_PER_LINE` (line 23). -/
def MAX_CHARS_PER_LINE : Nat := 200

/-- Line 158: `str(...).replace('\n', ' ').replace('\r', '')` — both patterns
are single characters, so the two replacements are a character map followed
by a character filter. -/
def sanitize (s : String) : String :=
  String.mk ((s.toList.map (fun ch => if ch = '\n' then ' ' else ch)).filter
    (fun ch => !(ch == '\r')))

/-- Lines 154–160, `format_row_content(row)`:
`f"{...}{...}{...}{...}"` builds prefix, name, separator, content, with a
tab separator when the prefix is empty and `' | '` otherwise. -/
def format_row_content (column_name : String) (pfx : String) (r : Row) : String :=
  let name := cellStr (r.get "姓名")
  let content := sanitize (cellStr (r.get column_name))
  let separator := if pfx == "" then "\t" else " | "
  pfx ++ name ++ separator ++ content

/-- One emitted element of a Word document body: an empty spacing paragraph,
a page break, or a content paragraph. -/
inductive DocEvent where
  | emptyLine : DocEvent
  | pageBreak : DocEvent
  | para : String → DocEvent
deriving Repr, DecidableEq

/-- Lines 170–180, the pagination loop of `create_content_file`: for each
formatted row, if the current line plus its estimate overflows the page,
emit a page break and `startLine - 1` empty lines and reset the cursor;
then emit the paragraph and advance the cursor by the estimate. -/
def paginateAux (startLine linesPerPage maxChars : Nat) :
    List String → Int → List DocEvent
  | [], _ => []
  | content :: rest, currentLine =>
    let estimated := estimate_line_count (some content) maxChars
    if currentLine + estimated > (linesPerPage : Int) then
      DocEvent.pageBreak ::
        (List.replicate (startLine - 1) DocEvent.emptyLine ++
          DocEvent.para content ::
            paginateAux startLine linesPerPage maxChars rest
              ((startLine : Int) + estimated))
    else
      DocEvent.para content ::
        paginateAux startLine linesPerPage maxChars rest (currentLine + estimated)

/-- The document body built by `create_content_file`: `START_LINE - 1`
leading empty lines (line 166), then the paginated formatted lines of the
records whose cell in the resolved column is non-missing (lines 152, 163,
170–180). -/
def docBody (df : DataFrame) (c : String) (pfx : String) : List DocEvent :=
  let valid_rows := df.rows.filter (fun r => (r.get c).isSome)
  let contents := valid_rows.map (format_row_content c pfx)
  List.replicate (START_LINE - 1) DocEvent.emptyLine ++
    paginateAux START_LINE LINES_PER_PAGE MAX_CHARS_PER_LINE contents
      (START_LINE : Int)

/-- Lines 144–193, `create_content_file`: `None` when the column is falsy
(absent, or the empty header name) or when every value of the column is
missing; otherwise the document body plus the saved file name
`f'{file_type}_{timestamp}.docx'`.  The page orientation argument has no
effect on the emitted content and is not modelled. -/
def create_content_file (df : DataFrame) (column_name : Option String)
    (file_type : String) (timestamp : String) (pfx : String) :
    Option (List DocEvent × String) :=
  match column_name with
  | none => none
  | some c =>
    if c == "" then none
    else if !((df.col c).any Option.isSome) then none
    else some (docBody df c pfx, file_type ++ "_" ++ timestamp ++ ".docx")

/-- The content paragraphs of a document body, in order. -/
def paraTexts (evs : List DocEvent) : List String :=
  evs.filterMap (fun e =>
    match e with
    | DocEvent.para s => some s
    | _ => none)

/-- Lines 246–251 and 377: the rendered note text — the note cell's string
when the note column is truthy and the cell is non-missing, else `''`. -/
def noteText (noteCol : Option String) (r : Row) : String :=
  if truthy noteCol then
    match noteCol with
    | some nc => (r.get nc).getD ""
    | none => ""
  else ""

/-- One table row of the 功德主 document (lines 240–251): name, email, phone
and the donor cell through `str(...)`, and the note via `noteText`. -/
def gongdeRow (gc : String) (noteCol : Option String) (r : Row) :
    String × String × String × String × String :=
  (cellStr (r.get "姓名"), cellStr (r.get "Email"), cellStr (r.get "行動電話"),
   cellStr (r.get gc), noteText noteCol r)

/-- Lines 195–263, `create_gongde_file`: `None` when the donor column is
falsy or when every value of it is missing; otherwise the table rows built
from the records whose donor cell is non-missing, plus the saved file name. -/
def create_gongde_file (df : DataFrame) (gongdeCol noteCol : Option String)
    (timestamp : String) :
    Option (List (String × String × String × String × String) × String) :=
  match gongdeCol with
  | none => none
  | some gc =>
    if gc == "" then none
    else if !((df.col gc).any Option.isSome) then none
    else
      some ((df.rows.filter (fun r => (r.get gc).isSome)).map (gongdeRow gc noteCol),
        "功德主" ++ "_" ++ timestamp ++ ".docx")

/-- The resolved columns passed to `create_word_files` (lines 488–493). -/
structure ColumnMapping where
  xiazai : Option String
  chaojian : Option String
  gongde : Option String
  note : Option String
deriving Repr, DecidableEq

/-- Lines 265–293, `create_word_files`: build the 消災牌位 and 超薦牌位
free-text documents and the 功德主 table, recording each produced file path
under its Chinese logical name, and return the truthiness of the three
resolved columns.  The timestamp, produced by `datetime.now()` in the
source, is a parameter. -/
def create_word_files (df : DataFrame) (cm : ColumnMapping) (timestamp : String) :
    List (String × String) × Bool × Bool × Bool :=
  let p1 := create_content_file df cm.xiazai "消災牌位" timestamp ""
  let p2 := create_content_file df cm.chaojian "超薦牌位" timestamp "陽上："
  let p3 := if truthy cm.gongde then create_gongde_file df cm.gongde cm.note timestamp
    else none
  let fps :=
    (match p1 with | some d => [("消災牌位", d.2)] | none => []) ++
    (match p2 with | some d => [("超薦牌位", d.2)] | none => []) ++
    (match p3 with | some d => [("功德主", d.2)] | none => [])
  (fps, truthy cm.xiazai, truthy cm.chaojian, truthy cm.gongde)

/-- Line 328: `df[activity].str.contains('現場上課|到場參加', case=False,
na=False)` — a NaN never matches; otherwise the lowercased value must
contain one of the two (case-invariant CJK) alternatives. -/
def attendMatch (c : Cell) : Bool :=
  match c with
  | none => false
  | some s => strContainsSub (strLower s) "現場上課" || strContainsSub (strLower s) "到場參加"

/-- Lines 299–389, `create_participant_excel`, reduced to the emitted data
rows: `None` when the 姓名 or activity column is not resolved (truthily) or
no row matches the attendance marker; otherwise one output row per matching
record, in order, carrying the printed number `row_idx - 2` (the source
enumerates worksheet rows from 3), the name cell, and the note text. -/
def create_participant_excel (df : DataFrame) : Option (List (Nat × Cell × String)) :=
  let _numberCol := find_matching_column df ["項次"]
  let nameCol := find_matching_column df ["姓名"]
  let activityCol := find_matching_column df ["參加項目", "參與課程"]
  let noteCol := find_matching_column df ["管理者註記事項"]
  if !(truthy nameCol && truthy activityCol) then none
  else
    match nameCol, activityCol with
    | some nc, some ac =>
      let participants := df.rows.filter (fun r => attendMatch (r.get ac))
      if participants.isEmpty then none
      else
        some ((participants.enumFrom 3).map (fun p =>
          (p.1 - 2, p.2.get nc, noteText noteCol p.2)))
    | _, _ => none

/-- Python `str.zfill(width)`: left-fill with `'0'` up to `width`, keeping a
leading `'+'`/`'-'` sign in front of the padding; a string at least `width`
long is returned unchanged. -/
def zfill (s : String) (width : Nat) : String :=
  if width ≤ s.length then s
  else
    match s.toList with
    | [] => String.mk (List.replicate width '0')
    | c :: rest =>
      if c == '+' || c == '-' then
        String.mk (c :: (List.replicate (width - s.length) '0' ++ rest))
      else
        String.mk (List.replicate (width - s.length) '0' ++ s.toList)

/-- Lines 408–410: on the 行動電話 entry of a row, zero-fill every
non-missing value to width 10. -/
def pad_phone_row (r : Row) : Row :=
  r.map (fun hc =>
    if hc.1 == "行動電話" then (hc.1, hc.2.map (fun v => zfill v 10)) else hc)

/-- Lines 404–411, `read_excel_file`: the phone column is read as text
(`dtype={'行動電話': str}`, reflected by the `Cell` model) and, when the
column is present, every non-missing phone value is zero-filled to 10. -/
def read_excel_file (df : DataFrame) : DataFrame :=
  if df.headers.contains "行動電話" then { df with rows := df.rows.map pad_phone_row }
  else df

/-- Line 415: the required base columns. -/
def required_base_columns : List String := ["姓名", "Email", "行動電話"]

/-- Line 416: `required_base_columns - set(df.columns)`.  The source holds
the missing names in a Python set (iteration order unspecified); the model
lists them in the fixed declaration order. -/
def missing_base_columns (df : DataFrame) : List String :=
  required_base_columns.filter (fun c => !(df.headers.contains c))

/-- An uploaded file: `content = none` models an unreadable spreadsheet. -/
structure UploadFile where
  filename : String
  content : Option DataFrame
deriving DecidableEq

/-- An upload request: `file = none` models `'file' not in request.files`. -/
structure Request where
  file : Option UploadFile
  activityType : String
deriving DecidableEq

/-- The requests `process_excel` can reject, lines 395–442 and 509–511.
`unpackMismatch`: with `activity_type != 'both'`, `validate_activity_data`
returns a 3-tuple that line 461 unpacks into two names, raising
`ValueError`.  `wordFail`: an exception inside the Word-generation block is
logged and re-raised (line 511), aborting the request. -/
inductive ProcErr where
  | noFile : ProcErr
  | noFilename : ProcErr
  | unreadable : ProcErr
  | missingColumns : List String → ProcErr
  | noOptionalColumn : ProcErr
  | noOptionalData : ProcErr
  | unpackMismatch : ProcErr
  | wordFail : ProcErr
deriving Repr, DecidableEq

/-- The success response: logical key ↦ generated file name (line 452,
507, 516). -/
structure Response where
  files : List (String × String)
deriving Repr, DecidableEq

/-- The columns resolved by `validate_activity_data` (lines 426–430). -/
structure ActivityCols where
  xiazai : Option String
  chaojian : Option String
  gongde : Option String
deriving Repr, DecidableEq

/-- Lines 426–430. -/
def validate_activity_cols (df : DataFrame) : ActivityCols :=
  { xiazai := find_matching_column df ["祈福牌位"],
    chaojian := find_matching_column df ["超薦牌位", "超渡牌位"],
    gongde := find_matching_column df ["功德主"] }

/-- Lines 436–439: `col is not None and df[col].notna().any()`. -/
def colHasData (df : DataFrame) : Option String → Bool
  | none => false
  | some c => (df.col c).any Option.isSome

/-- Lines 472–475: `if col: relevant_columns.append(col)` (truthy filter). -/
def optTruthy (c : Option String) : List String :=
  match c with
  | none => []
  | some s => if s == "" then [] else [s]

/-- Line 482: `list(dict.fromkeys(...))` keeps the first occurrence of each
name, in order. -/
def dedupFirst : List String → List String
  | [] => []
  | a :: l => a :: (dedupFirst l).filter (fun x => !(x == a))

/-- Line 485: `df[relevant_columns]` (column projection, in that order). -/
def project (df : DataFrame) (cols : List String) : DataFrame :=
  { headers := cols,
    rows := df.rows.map (fun r => cols.map (fun c => (c, r.get c))) }

/-- Lines 464–507, the Word-generation block: resolve the note column,
project the working DataFrame onto the relevant columns, recompute the
column mapping on it, run `create_word_files`, and emit a response entry
for each logical key whose column has data and whose file was produced. -/
def word_step (df : DataFrame) (v : ActivityCols) (timestamp : String) :
    List (String × String) :=
  let note_column := find_matching_column df ["管理者註記事項"]
  let relevant_columns := dedupFirst
    (["姓名", "Email", "行動電話"] ++
      (optTruthy v.xiazai ++ optTruthy v.chaojian ++ optTruthy v.gongde) ++
      optTruthy note_column)
  let working_df := project df relevant_columns
  let cm : ColumnMapping :=
    { xiazai := find_matching_column working_df ["祈福牌位"],
      chaojian := find_matching_column working_df ["超薦牌位", "超渡牌位"],
      gongde := find_matching_column working_df ["功德主"],
      note := note_column }
  let fps := (create_word_files working_df cm timestamp).1
  (if colHasData df v.xiazai && ((fps.lookup "消災牌位").isSome) then
      [("xiazai", (fps.lookup "消災牌位").getD "")] else []) ++
  (if colHasData df v.chaojian && ((fps.lookup "超薦牌位").isSome) then
      [("chaojian", (fps.lookup "超薦牌位").getD "")] else []) ++
  (if colHasData df v.gongde && ((fps.lookup "功德主").isSome) then
      [("gongde", (fps.lookup "功德主").getD "")] else [])

/-- Lines 513–519: the participant roster is attempted last; any exception
in it (modelled by `excelOk = false`) is caught and logged, and processing
continues without a `participant` entry. -/
def participant_step (df : DataFrame) (timestamp : String) (excelOk : Bool) :
    List (String × String) :=
  if excelOk then
    match create_participant_excel df with
    | some _ => [("participant", "全程參加者名單" ++ "_" ++ timestamp ++ ".xlsx")]
    | none => []
  else []

/-- Lines 395–461: file validation, reading, base-column validation, and
`validate_activity_data`, up to (and excluding) document generation. -/
def process_pre (req : Request) : Except ProcErr (DataFrame × ActivityCols) :=
  match req.file with
  | none => Except.error ProcErr.noFile
  | some f =>
    if f.filename == "" then Except.error ProcErr.noFilename
    else
      match f.content with
      | none => Except.error ProcErr.unreadable
      | some raw =>
        let df := read_excel_file raw
        if !(missing_base_columns df).isEmpty then
          Except.error (ProcErr.missingColumns (missing_base_columns df))
        else if !(req.activityType == "both") then
          Except.error ProcErr.unpackMismatch
        else
          let v := validate_activity_cols df
          if !(truthy v.xiazai || truthy v.chaojian || truthy v.gongde) then
            Except.error ProcErr.noOptionalColumn
          else if !(colHasData df v.xiazai || colHasData df v.chaojian ||
              colHasData df v.gongde) then
            Except.error ProcErr.noOptionalData
          else Except.ok (df, v)

/-- Lines 391–529, `process_excel`: validation (`process_pre`), then the
Word block — whose failure (`wordOk = false`) is re-raised and aborts the
request (lines 509–511) — then the independently caught participant step. -/
def process_excel (req : Request) (timestamp : String) (wordOk excelOk : Bool) :
    Except ProcErr Response :=
  match process_pre req with
  | Except.error e => Except.error e
  | Except.ok dv =>
    if !wordOk then Except.error ProcErr.wordFail
    else Except.ok
      { files := word_step dv.1 dv.2 timestamp ++
          participant_step dv.1 timestamp excelOk }

deriving instance DecidableEq for Except

/-! ### Concrete scenario data -/

/-- A 450-character tablet-column value (scenario C9). -/
def tabletText450 : String := String.mk (List.replicate 450 '祈')

/-- The C9 scenario row: empty name, a 450-character tablet value. -/
def rowC9 : Row :=
  [("姓名", some ""), ("Email", some "user@example.com"),
   ("行動電話", some "0912345678"), ("祈福牌位(隨喜)", some tabletText450)]

def dfC9 : DataFrame :=
  { headers := ["姓名", "Email", "行動電話", "祈福牌位(隨喜)"], rows := [rowC9] }

/-- A record whose *name* cell contains a newline character. -/
def dfC10 : DataFrame :=
  { headers := ["姓名", "內容"],
    rows := [[("姓名", some "甲\n乙"), ("內容", some "文")]] }

/-- A well-behaved upload whose content cell holds line breaks. -/
def dfC10w : DataFrame :=
  { headers := ["姓名", "內容"],
    rows := [[("姓名", some "王"), ("內容", some "A\nB\rC")]] }

/-- Five records, two of which carry the attendance marker. -/
def dfC5 : DataFrame :=
  { headers := ["姓名", "參加項目"],
    rows := [
      [("姓名", some "甲"), ("參加項目", some "現場上課")],
      [("姓名", some "乙"), ("參加項目", some "線上參與")],
      [("姓名", some "丙"), ("參加項目", some "到場參加")],
      [("姓名", some "丁"), ("參加項目", none)],
      [("姓名", some "戊"), ("參加項目", some "不參加")]] }

/-- The participant rows expected from `dfC5`. -/
def outC5 : List (Nat × Cell × String) :=
  [(1, some "甲", ""), (2, some "丙", "")]

/-- An upload whose donor column is present but entirely empty, while the
祈福牌位 column has data. -/
def dfC4w : DataFrame :=
  { headers := ["姓名", "Email", "行動電話", "祈福牌位", "功德主"],
    rows := [[("姓名", some "王"), ("Email", some "e@x"),
      ("行動電話", some "0912345678"), ("祈福牌位", some "平安"), ("功德主", none)]] }

def fileC4w : UploadFile := { filename := "u.xlsx", content := some dfC4w }

def reqC4w : Request := { file := some fileC4w, activityType := "both" }

/-- The response expected for `reqC4w`: only the 消災牌位 document. -/
def respC4w : Response := { files := [("xiazai", "消災牌位_t.docx")] }

/-- An upload that produces both a ceremony document and a participant
roster when nothing fails. -/
def dfC6 : DataFrame :=
  { headers := ["姓名", "Email", "行動電話", "祈福牌位", "參加項目"],
    rows := [[("姓名", some "王"), ("Email", some "e@x"),
      ("行動電話", some "0912345678"), ("祈福牌位", some "平安"),
      ("參加項目", some "現場上課")]] }

def reqC6 : Request :=
  { file := some { filename := "u.xlsx", content := some dfC6 },
    activityType := "both" }

/-- An upload missing the Email and 行動電話 base columns. -/
def dfC7w : DataFrame :=
  { headers := ["姓名", "祈福牌位"],
    rows := [[("姓名", some "王"), ("祈福牌位", some "平安")]] }

def fileC7w : UploadFile := { filename := "u.xlsx", content := some dfC7w }

def reqC7w : Request := { file := some fileC7w, activityType := "both" }

/-- An upload whose phone value is the six digits of scenario C8. -/
def dfC8w : DataFrame :=
  { headers := ["姓名", "Email", "行動電話"],
    rows := [[("姓名", some "王"), ("Email", some "e@x"), ("行動電話", some "912345")]] }

/-! ### Helper lemmas -/

theorem toList_mk (l : List Char) : (String.mk l).toList = l := rfl

theorem toList_append (a b : String) :
    (a ++ b).toList = a.toList ++ b.toList := rfl

theorem charsPrefixOf_iff (p s : List Char) :
    charsPrefixOf p s = true ↔ ∃ v, s = p ++ v := by
  induction p generalizing s with
  | nil => simp [charsPrefixOf]
  | cons a as ih =>
    cases s with
    | nil => simp [charsPrefixOf]
    | cons b bs =>
      simp only [charsPrefixOf, Bool.and_eq_true, beq_iff_eq, ih, List.cons_append,
        List.cons.injEq]
      constructor
      · rintro ⟨h1, v, h2⟩
        exact ⟨v, h1.symm, h2⟩
      · rintro ⟨v, h1, h2⟩
        exact ⟨h1.symm, v, h2⟩

theorem charsSubOf_iff (p s : List Char) :
    charsSubOf p s = true ↔ ∃ u v, s = u ++ p ++ v := by
  induction s with
  | nil =>
    simp only [charsSubOf, charsPrefixOf_iff]
    constructor
    · rintro ⟨v, hv⟩
      exact ⟨[], v, by simpa using hv⟩
    · rintro ⟨u, v, huv⟩
      have hu : u = [] := by
        cases u with
        | nil => rfl
        | cons x xs => simp at huv
      subst hu
      exact ⟨v, by simpa using huv⟩
  | cons c t ih =>
    simp only [charsSubOf, Bool.or_eq_true, charsPrefixOf_iff, ih]
    constructor
    · rintro (⟨v, hv⟩ | ⟨u, v, huv⟩)
      · exact ⟨[], v, by simpa using hv⟩
      · exact ⟨c :: u, v, by simp [huv]⟩
    · rintro ⟨u, v, huv⟩
      cases u with
      | nil =>
        left
        exact ⟨v, by simpa using huv⟩
      | cons x xs =>
        right
        simp only [List.cons_append, List.cons.injEq] at huv
        exact ⟨xs, v, huv.2⟩

/-- The meaning of `strContainsSub` at the character level. -/
theorem strContainsSub_iff (hay pat : String) :
    strContainsSub hay pat = true ↔ ∃ u v, hay.toList = u ++ pat.toList ++ v :=
  charsSubOf_iff pat.toList hay.toList

/-- Negated floor division really is ceiling division: for positive `n`, `m`,
`-((-n) fdiv m)` equals the natural ceiling `(n + m - 1) / m`. -/
theorem neg_fdiv_neg_eq_ceil (n m : Nat) (hn : 0 < n) (hm : 0 < m) :
    -(Int.fdiv (-(n : Int)) (m : Int)) = ((n + m - 1) / m : Nat) := by
  have hm0 : (0 : Int) ≤ (m : Int) := by positivity
  rw [Int.fdiv_eq_ediv _ hm0]
  set k : Nat := (n + m - 1) / m with hk
  set r : Nat := (n + m - 1) % m with hr
  have hdm : m * k + r = n + m - 1 := Nat.div_add_mod (n + m - 1) m
  have hrm : r < m := Nat.mod_lt _ hm
  have hdm2 : ((m : Int)) * (k : Int) + (r : Int) + 1 = (n : Int) + (m : Int) := by
    have hdm1 : m * k + r + 1 = n + m := by omega
    exact_mod_cast hdm1
  have hsplit : (-(n : Int)) = ((m : Int) - 1 - (r : Int)) + (-(k : Int)) * (m : Int) := by
    have h2 : (-(k : Int)) * (m : Int) = -((m : Int) * (k : Int)) := by ring
    rw [h2]
    omega
  have hmne : (m : Int) ≠ 0 := by
    intro h
    omega
  have hsmall : ((m : Int) - 1 - (r : Int)) / (m : Int) = 0 := by
    apply Int.ediv_eq_zero_of_lt <;> omega
  have : (-(n : Int)) / (m : Int) = -(k : Int) := by
    rw [hsplit, Int.add_mul_ediv_right _ _ hmne, hsmall]
    omega
  rw [this]
  omega

/-- The estimator is at least 1 whenever the divisor is positive. -/
theorem estimate_line_count_pos (t : Option String) (m : Nat) (hm : 0 < m) :
    1 ≤ estimate_line_count t m := by
  match t with
  | none => simp [estimate_line_count]
  | some s =>
    by_cases h : s.length = 0
    · simp [estimate_line_count, h]
    · have hn : 0 < s.length := Nat.pos_of_ne_zero h
      have := neg_fdiv_neg_eq_ceil s.length m hn hm
      simp only [estimate_line_count, h, if_false]
      rw [this]
      have h1 : 1 ≤ (s.length + m - 1) / m := by
        rw [Nat.le_div_iff_mul_le hm]
        omega
      exact_mod_cast h1

theorem find_matching_column_eq (df : DataFrame) (keywords : List String) :
    find_matching_column df keywords = df.headers.find? (headerPred keywords) := rfl

theorem headerPred_iff (keywords : List String) (col : String) :
    headerPred keywords col = true ↔ HeaderMatch keywords col := by
  simp only [headerPred, List.any_eq_true, List.mem_map]
  constructor
  · rintro ⟨k2, ⟨k, hk, rfl⟩, hsub⟩
    exact ⟨k, hk, (strContainsSub_iff _ _).mp hsub⟩
  · rintro ⟨k, hk, h⟩
    exact ⟨strLower k, ⟨k, hk, rfl⟩, (strContainsSub_iff _ _).mpr h⟩

theorem paraTexts_append (a b : List DocEvent) :
    paraTexts (a ++ b) = paraTexts a ++ paraTexts b :=
  List.filterMap_append a b _

theorem paraTexts_replicate_emptyLine (n : Nat) :
    paraTexts (List.replicate n DocEvent.emptyLine) = [] := by
  induction n with
  | zero => rfl
  | succ k ih => simp [List.replicate_succ, paraTexts, ih]

/-- Every input row comes out of the paginator exactly once, in order. -/
theorem paraTexts_paginateAux (sl lpp mc : Nat) :
    ∀ (rows : List String) (cur : Int),
      paraTexts (paginateAux sl lpp mc rows cur) = rows := by
  intro rows
  induction rows with
  | nil => intro cur; rfl
  | cons content rest ih =>
    intro cur
    simp only [paginateAux]
    split
    · rw [show (DocEvent.pageBreak ::
          (List.replicate (sl - 1) DocEvent.emptyLine ++
            DocEvent.para content ::
              paginateAux sl lpp mc rest
                ((sl : Int) + estimate_line_count (some content) mc))) =
          ((DocEvent.pageBreak :: List.replicate (sl - 1) DocEvent.emptyLine) ++
            (DocEvent.para content ::
              paginateAux sl lpp mc rest
                ((sl : Int) + estimate_line_count (some content) mc))) from rfl,
        paraTexts_append]
      have h1 : paraTexts
          (DocEvent.pageBreak :: List.replicate (sl - 1) DocEvent.emptyLine) = [] := by
        simp [paraTexts, paraTexts_replicate_emptyLine (sl - 1)]
      rw [h1]
      simpa [paraTexts] using ih _
    · simpa [paraTexts] using ih _

/-! ### The claim theorems -/

/-- **C1.** `estimate_line_count` returns 1 on absent (`None`) or empty
text, and otherwise the true ceiling `⌈len(text)/max_chars_per_line⌉`
computed as `(len + max - 1) / max`; the result is always an integer ≥ 1. -/
theorem estimate_line_count_spec (m : Nat) (hm : 0 < m) :
    estimate_line_count none m = 1 ∧
    estimate_line_count (some "") m = 1 ∧
    (∀ s : String, s.length ≠ 0 →
      estimate_line_count (some s) m = ((s.length + m - 1) / m : Nat)) ∧
    (∀ t : Option String, 1 ≤ estimate_line_count t m) := by
  refine ⟨rfl, rfl, ?_, fun t => estimate_line_count_pos t m hm⟩
  intro s hs
  have hn : 0 < s.length := Nat.pos_of_ne_zero hs
  simp only [estimate_line_count, hs, if_false]
  exact neg_fdiv_neg_eq_ceil s.length m hn hm

/-- Witness for C1 at `m = 200` and a 450-character text. -/
theorem estimate_line_count_spec_witness :
    estimate_line_count none 200 = 1 ∧
    estimate_line_count (some "") 200 = 1 ∧
    estimate_line_count (some (String.mk (List.replicate 450 'x'))) 200 =
      ((450 + 200 - 1) / 200 : Nat) := by
  have h := estimate_line_count_spec 200 (by decide)
  refine ⟨h.1, h.2.1, ?_⟩
  have hlen : (String.mk (List.replicate 450 'x')).length = 450 := by
    rw [String.length_mk, List.length_replicate]
  have h3 := h.2.2.1 (String.mk (List.replicate 450 'x')) (by rw [hlen]; decide)
  rw [h3, hlen]

/-- **C2.** `find_matching_column` returns the first header, in original
column order, whose lowercased text contains some lowercased alias as a
substring (every earlier header fails to match); it returns `none` exactly
when no header matches; and it is deterministic (same inputs, same result). -/
theorem find_matching_column_spec (df : DataFrame) (keywords : List String) :
    (∀ c, find_matching_column df keywords = some c ↔
        HeaderMatch keywords c ∧
        ∃ pre post, df.headers = pre ++ c :: post ∧
          ∀ c2 ∈ pre, ¬ HeaderMatch keywords c2) ∧
    (find_matching_column df keywords = none ↔
        ∀ c ∈ df.headers, ¬ HeaderMatch keywords c) ∧
    find_matching_column df keywords = find_matching_column df keywords := by
  refine ⟨?_, ?_, rfl⟩
  · intro c
    rw [find_matching_column_eq, List.find?_eq_some]
    constructor
    · rintro ⟨hc, pre, post, hsplit, hpre⟩
      refine ⟨(headerPred_iff keywords c).mp hc, pre, post, hsplit, ?_⟩
      intro c2 hc2 hmatch
      have := hpre c2 hc2
      rw [(headerPred_iff keywords c2).mpr hmatch] at this
      simp at this
    · rintro ⟨hc, pre, post, hsplit, hpre⟩
      refine ⟨(headerPred_iff keywords c).mpr hc, pre, post, hsplit, ?_⟩
      intro c2 hc2
      have : ¬ headerPred keywords c2 = true := fun h =>
        hpre c2 hc2 ((headerPred_iff keywords c2).mp h)
      simp only [Bool.not_eq_true] at this
      simp [this]
  · rw [find_matching_column_eq, List.find?_eq_none]
    constructor
    · intro h c hc hmatch
      exact h c hc ((headerPred_iff keywords c).mpr hmatch)
    · intro h c hc hp
      exact h c hc ((headerPred_iff keywords c).mp hp)

/-- **C3.** Paginator invariant: (i) the emitted content paragraphs are
exactly the input rows, each exactly once in order (so the cumulative
emitted row count equals the input row count); (ii) a page break precedes a
row exactly when the current cursor plus that row's estimated line count
exceeds `linesPerPage`, in which case `startLine - 1` blank lines follow
the break and the cursor restarts from `startLine`; otherwise nothing
precedes the row and the cursor advances by the estimate. -/
theorem paginator_invariant (sl lpp mc : Nat) :
    (∀ (rows : List String) (cur : Int),
      paraTexts (paginateAux sl lpp mc rows cur) = rows ∧
      (paraTexts (paginateAux sl lpp mc rows cur)).length = rows.length) ∧
    (∀ (content : String) (rest : List String) (cur : Int),
      paginateAux sl lpp mc (content :: rest) cur =
        (if cur + estimate_line_count (some content) mc > (lpp : Int) then
            DocEvent.pageBreak :: List.replicate (sl - 1) DocEvent.emptyLine
          else []) ++
          DocEvent.para content ::
            paginateAux sl lpp mc rest
              (if cur + estimate_line_count (some content) mc > (lpp : Int) then
                  (sl : Int) + estimate_line_count (some content) mc
                else cur + estimate_line_count (some content) mc)) := by
  constructor
  · intro rows cur
    exact ⟨paraTexts_paginateAux sl lpp mc rows cur,
      by rw [paraTexts_paginateAux sl lpp mc rows cur]⟩
  · intro content rest cur
    simp only [paginateAux]
    split
    · simp
    · simp

theorem map_newline_noop {l : List Char} (h : ∀ ch ∈ l, ¬ ch = '\n') :
    l.map (fun ch => if ch = '\n' then ' ' else ch) = l := by
  induction l with
  | nil => rfl
  | cons a t ih =>
    have ha : ¬ a = '\n' := h a (List.mem_cons_self a t)
    simp only [List.map_cons, if_neg ha]
    rw [ih (fun ch hch => h ch (List.mem_cons_of_mem a hch))]

theorem filter_cr_noop {l : List Char} (h : ∀ ch ∈ l, ¬ ch = '\r') :
    l.filter (fun ch => !(ch == '\r')) = l :=
  List.filter_eq_self.mpr (fun a ha => by simpa using h a ha)

/-- Sanitizing a string without line breaks is the identity. -/
theorem sanitize_eq_self (s : String)
    (h : ∀ ch ∈ s.toList, ¬ ch = '\n' ∧ ¬ ch = '\r') : sanitize s = s := by
  unfold sanitize
  rw [map_newline_noop (fun ch hch => (h ch hch).1),
    filter_cr_noop (fun ch hch => (h ch hch).2)]
  rfl

/-- The sanitized cell text contains no newline and no carriage return. -/
theorem sanitize_no_line_breaks (s : String) :
    ∀ ch ∈ (sanitize s).toList, ¬ ch = '\n' ∧ ¬ ch = '\r' := by
  intro ch hch
  unfold sanitize at hch
  rw [toList_mk] at hch
  constructor
  · have hm := List.mem_of_mem_filter hch
    rcases List.mem_map.mp hm with ⟨c0, hc0, hEq⟩
    intro hn
    by_cases h0 : c0 = '\n'
    · rw [if_pos h0] at hEq
      rw [← hEq] at hn
      exact absurd hn (by decide)
    · rw [if_neg h0] at hEq
      rw [← hEq] at hn
      exact h0 hn
  · have hp := List.of_mem_filter hch
    intro hr
    rw [hr] at hp
    simp at hp

theorem sanitize_tabletText450 : sanitize tabletText450 = tabletText450 := by
  apply sanitize_eq_self
  intro ch hch
  rw [show tabletText450.toList = List.replicate 450 '祈' from rfl] at hch
  rw [List.eq_of_mem_replicate hch]
  refine ⟨by decide, by decide⟩

theorem format_rowC9_length :
    (format_row_content "祈福牌位(隨喜)" "" rowC9).length = 451 := by
  unfold format_row_content
  have hname : cellStr (rowC9.get "姓名") = "" := rfl
  have hcell : rowC9.get "祈福牌位(隨喜)" = some tabletText450 := rfl
  rw [hname, hcell]
  simp only [cellStr, sanitize_tabletText450]
  rw [if_pos (by decide)]
  rw [String.length_append, String.length_append, String.length_append]
  rw [show tabletText450.length = 450 from by
    unfold tabletText450
    rw [String.length_mk, List.length_replicate]]
  rfl

/-- **C9.** In the scenario with headers 姓名/Email/行動電話/祈福牌位(隨喜)
and one row holding a 450-character tablet value, the resolver finds the
tablet column, the generated document holds exactly that row's formatted
line, and the line-count estimate of that formatted line at
`MAX_CHARS_PER_LINE = 200` is `⌈451 / 200⌉ = 3`. -/
theorem scenario_tablet_450 :
    find_matching_column dfC9 ["祈福牌位"] = some "祈福牌位(隨喜)" ∧
    (create_content_file dfC9 (find_matching_column dfC9 ["祈福牌位"])
        "消災牌位" "t" "").map (fun doc => paraTexts doc.1) =
      some [format_row_content "祈福牌位(隨喜)" "" rowC9] ∧
    estimate_line_count (some (format_row_content "祈福牌位(隨喜)" "" rowC9))
        MAX_CHARS_PER_LINE = ((451 + 200 - 1) / 200 : Nat) ∧
    ((451 + 200 - 1) / 200 : Nat) = 3 := by
  have hfind : find_matching_column dfC9 ["祈福牌位"] = some "祈福牌位(隨喜)" := by
    decide
  refine ⟨hfind, ?_, ?_, by norm_num⟩
  · rw [hfind]
    have hcreate : create_content_file dfC9 (some "祈福牌位(隨喜)") "消災牌位" "t" "" =
        some (docBody dfC9 "祈福牌位(隨喜)" "",
          "消災牌位" ++ "_" ++ "t" ++ ".docx") := by
      rfl
    rw [hcreate, Option.map_some']
    refine congrArg some ?_
    show paraTexts (docBody dfC9 "祈福牌位(隨喜)" "") =
      [format_row_content "祈福牌位(隨喜)" "" rowC9]
    unfold docBody
    rw [paraTexts_append, paraTexts_replicate_emptyLine, List.nil_append,
      paraTexts_paginateAux]
    have hfilter : dfC9.rows.filter
        (fun r => (r.get "祈福牌位(隨喜)").isSome) = [rowC9] := by
      show List.filter _ [rowC9] = [rowC9]
      rw [List.filter_cons_of_pos (by rfl)]
      rfl
    rw [hfilter]
    rfl
  · have hne : ¬ (format_row_content "祈福牌位(隨喜)" "" rowC9).length = 0 := by
      rw [format_rowC9_length]
      decide
    simp only [estimate_line_count, MAX_CHARS_PER_LINE, if_neg hne,
      format_rowC9_length]
    decide

/-- **C10, counterexample.** The claim that every generated paragraph is
free of line-break characters fails: a name cell holding a newline is
interpolated into the paragraph unsanitized, so the document built from
`dfC10` contains a paragraph with a `'\n'`. -/
theorem content_paragraph_newline_counterexample :
    ((create_content_file dfC10 (some "內容") "消災牌位" "t" "").map
      (fun doc => (paraTexts doc.1).any (fun s => s.toList.contains '\n'))) =
      some true := by
  decide

/-- **C10, amended.** Each record with a non-missing value in the resolved
column produces exactly one paragraph, `{...prefix, name, separator,
content...}`, whose content part is the cell value with every newline
replaced by a space and every carriage return removed; the sanitized cell
contributes no line-break characters, and the whole paragraph is free of
line breaks provided the prefix and the record's name cell contain none
(the name is not sanitized). -/
theorem content_paragraphs_sanitized (df : DataFrame) (c : String)
    (ft ts pfx : String) (doc : List DocEvent × String)
    (h : create_content_file df (some c) ft ts pfx = some doc) :
    paraTexts doc.1 =
      (df.rows.filter (fun r => (r.get c).isSome)).map (format_row_content c pfx) ∧
    (∀ r : Row, ∀ ch ∈ (sanitize (cellStr (r.get c))).toList,
      ¬ ch = '\n' ∧ ¬ ch = '\r') ∧
    (∀ r : Row,
      (∀ ch ∈ pfx.toList, ¬ ch = '\n' ∧ ¬ ch = '\r') →
      (∀ ch ∈ (cellStr (r.get "姓名")).toList, ¬ ch = '\n' ∧ ¬ ch = '\r') →
      ∀ ch ∈ (format_row_content c pfx r).toList, ¬ ch = '\n' ∧ ¬ ch = '\r') := by
  refine ⟨?_, fun r => sanitize_no_line_breaks (cellStr (r.get c)), ?_⟩
  · have hdoc : doc.1 = docBody df c pfx := by
      simp only [create_content_file] at h
      split at h
      · exact absurd h (by simp)
      · split at h
        · exact absurd h (by simp)
        · rw [← Option.some_inj.mp h]
    rw [hdoc]
    unfold docBody
    rw [paraTexts_append, paraTexts_replicate_emptyLine, List.nil_append,
      paraTexts_paginateAux]
  · intro r hpfx hname ch hch
    have hsep : ∀ ch2 ∈ (if pfx == "" then "\t" else " | ").toList,
        ¬ ch2 = '\n' ∧ ¬ ch2 = '\r' := by
      split
      · decide
      · decide
    unfold format_row_content at hch
    rw [toList_append, toList_append, toList_append] at hch
    rcases List.mem_append.mp hch with h1 | h1
    · rcases List.mem_append.mp h1 with h2 | h2
      · rcases List.mem_append.mp h2 with h3 | h3
        · exact hpfx ch h3
        · exact hname ch h3
      · exact hsep ch h2
    · exact sanitize_no_line_breaks _ ch h1

theorem range'_map_sub_two (n : Nat) :
    ∀ s : Nat, (List.range' (s + 2) n).map (fun x => x - 2) = List.range' s n := by
  induction n with
  | zero => intro s; rfl
  | succ k ih =>
    intro s
    rw [List.range'_succ, List.range'_succ]
    simp only [List.map_cons]
    rw [show s + 2 - 2 = s from by omega,
      show s + 2 + 1 = (s + 1) + 2 from by omega, ih (s + 1)]

/-- **C5.** The participant roster holds exactly one data row per record
whose activity cell matches the attendance marker (現場上課 or 到場參加,
case-insensitively), in the original record order, numbered sequentially
from 1 (the source writes `row_idx - 2` over worksheet rows enumerated
from 3). -/
theorem participant_roster_spec (df : DataFrame) (out : List (Nat × Cell × String))
    (h : create_participant_excel df = some out) :
    (∃ nc ac,
      find_matching_column df ["姓名"] = some nc ∧
      find_matching_column df ["參加項目", "參與課程"] = some ac ∧
      out.map (fun x => x.2) =
        (df.rows.filter (fun r => attendMatch (r.get ac))).map
          (fun r => (r.get nc,
            noteText (find_matching_column df ["管理者註記事項"]) r))) ∧
    out.map (fun x => x.1) = List.range' 1 out.length := by
  simp only [create_participant_excel] at h
  split at h
  · exact absurd h (by simp)
  · split at h
    next nc ac hnc hac =>
      split at h
      · exact absurd h (by simp)
      · have hout : ((df.rows.filter (fun r => attendMatch (r.get ac))).enumFrom 3).map
            (fun p => (p.1 - 2, p.2.get nc,
              noteText (find_matching_column df ["管理者註記事項"]) p.2)) = out :=
          Option.some_inj.mp h
        constructor
        · refine ⟨nc, ac, hnc, hac, ?_⟩
          rw [← hout, List.map_map]
          show List.map
            ((fun r => (r.get nc,
                noteText (find_matching_column df ["管理者註記事項"]) r)) ∘ Prod.snd)
            ((df.rows.filter (fun r => attendMatch (r.get ac))).enumFrom 3) = _
          rw [← List.map_map, List.enumFrom_map_snd]
        · rw [← hout, List.map_map, List.length_map, List.enumFrom_length]
          show List.map ((fun x => x - 2) ∘ Prod.fst)
            ((df.rows.filter (fun r => attendMatch (r.get ac))).enumFrom 3) = _
          rw [← List.map_map, List.enumFrom_map_fst,
            show (3 : Nat) = 1 + 2 from rfl, range'_map_sub_two]
    next h1 h2 => exact absurd h (by simp)

/-- Witness for C5: in `dfC5` the attendance marker appears in 2 of 5
records, and the roster holds exactly 2 data rows numbered 1 and 2. -/
theorem participant_roster_spec_witness :
    create_participant_excel dfC5 = some outC5 ∧
    outC5.map (fun x => x.1) = List.range' 1 outC5.length :=
  ⟨by decide, (participant_roster_spec dfC5 outC5 (by decide)).2⟩

theorem pad_phone_row_get (r : Row) (v : String) :
    r.get "行動電話" = some v →
    (pad_phone_row r).get "行動電話" = some (zfill v 10) := by
  induction r with
  | nil =>
    intro hv
    simp [Row.get, List.lookup] at hv
  | cons hc t ih =>
    intro hv
    obtain ⟨k, c⟩ := hc
    by_cases heq : "行動電話" = k
    · subst heq
      simp only [Row.get, List.lookup_cons_self] at hv
      have hc2 : c = some v := by
        cases c with
        | none => simp [Option.join] at hv
        | some w => simpa [Option.join] using hv
      subst hc2
      simp only [pad_phone_row, List.map_cons]
      rw [if_pos (by simp)]
      simp [Row.get, List.lookup_cons_self, Option.join]
    · have hk1 : ("行動電話" == k) = false := by
        simp only [beq_eq_false_iff_ne, ne_eq]
        exact heq
      simp only [Row.get, List.lookup, hk1, cond_false] at hv
      have ht := ih hv
      simp only [pad_phone_row, List.map_cons]
      by_cases hk2 : (k == "行動電話") = true
      · rw [if_pos hk2]
        simp only [Row.get, List.lookup, hk1, cond_false]
        exact ht
      · rw [if_neg hk2]
        simp only [Row.get, List.lookup, hk1, cond_false]
        exact ht

theorem zfill_length (s : String) (w : Nat) :
    (zfill s w).length = max s.length w := by
  have hsl : s.length = s.toList.length := rfl
  unfold zfill
  split
  next h =>
    rw [Nat.max_eq_left h]
  next h =>
    split
    next heq =>
      rw [String.length_mk, List.length_replicate]
      have h0 : s.length = 0 := by
        rw [hsl, heq]
        rfl
      rw [h0, Nat.zero_max]
    next c rest heq =>
      have hlen : s.length = rest.length + 1 := by
        rw [hsl, heq]
        rfl
      split
      · rw [String.length_mk, List.length_cons, List.length_append,
          List.length_replicate]
        omega
      · rw [String.length_mk, List.length_append, List.length_replicate, ← hsl]
        omega

/-- **C8.** After `read_excel_file`, every non-missing phone value is the
original text left-filled with zeros to width 10; in particular `"912345"`
is stored as `"0000912345"`. -/
theorem phone_padded (df : DataFrame)
    (h : df.headers.contains "行動電話" = true) :
    (read_excel_file df).rows = df.rows.map pad_phone_row ∧
    (∀ r : Row, ∀ v : String, r.get "行動電話" = some v →
      (pad_phone_row r).get "行動電話" = some (zfill v 10)) ∧
    (∀ s : String, (zfill s 10).length = max s.length 10) ∧
    zfill "912345" 10 = "0000912345" := by
  refine ⟨?_, fun r v hv => pad_phone_row_get r v hv,
    fun s => zfill_length s 10, by decide⟩
  unfold read_excel_file
  rw [if_pos h]

/-- Witness for C8: in `dfC8w` the phone header is present and its value
`"912345"` is read back zero-filled to `"0000912345"`. -/
theorem phone_padded_witness :
    dfC8w.headers.contains "行動電話" = true ∧
    (read_excel_file dfC8w).rows = dfC8w.rows.map pad_phone_row ∧
    (read_excel_file dfC8w).rows.map (fun r => r.get "行動電話") =
      [some "0000912345"] :=
  ⟨by decide, (phone_padded dfC8w (by decide)).1, by decide⟩

/-- A column resolved from non-empty keywords is never the empty header. -/
theorem find_matching_column_ne_empty (df : DataFrame) (kws : List String)
    (hk : ∀ k ∈ kws, ¬ k = "") (c : String)
    (hc : find_matching_column df kws = some c) : (c == "") = false := by
  have hp : headerPred kws c = true := List.find?_some hc
  obtain ⟨k, hkmem, u, v, huv⟩ := (headerPred_iff kws c).mp hp
  rw [beq_eq_false_iff_ne]
  intro hce
  subst hce
  rw [show (strLower "").toList = ([] : List Char) from rfl] at huv
  have hmid : (strLower k).toList = [] := by
    rcases List.append_eq_nil.mp huv.symm with ⟨h1, h2⟩
    exact (List.append_eq_nil.mp h1).2
  have hkl : k.toList = [] := by
    have hlen := congrArg List.length hmid
    simp only [strLower, toList_mk, List.length_map, List.length_nil] at hlen
    exact List.eq_nil_of_length_eq_zero hlen
  have hke : k = "" := congrArg String.mk hkl
  exact hk k hkmem hke

/-- A free-text document is generated iff the resolved column exists and
has at least one non-missing value. -/
theorem create_content_file_isSome (df : DataFrame) (kws : List String)
    (hk : ∀ k ∈ kws, ¬ k = "") (ft ts pfx : String) :
    (create_content_file df (find_matching_column df kws) ft ts pfx).isSome = true ↔
      ∃ c, find_matching_column df kws = some c ∧
        (df.col c).any Option.isSome = true := by
  cases hc : find_matching_column df kws with
  | none => simp [create_content_file]
  | some c =>
    have hne := find_matching_column_ne_empty df kws hk c hc
    simp only [create_content_file, hne, Bool.false_eq_true, if_false]
    by_cases hA : (df.col c).any Option.isSome = true
    · simp only [hA]
      simp only [Option.isSome] at hA ⊢
      constructor
      · intro _
        exact ⟨c, rfl, hA⟩
      · intro _
        rfl
    · simp only [Bool.not_eq_true] at hA
      simp only [hA]
      constructor
      · intro hfalse
        exact absurd hfalse (by simp)
      · rintro ⟨c2, hc2, hdata⟩
        rw [← Option.some_inj.mp hc2] at hdata
        rw [hA] at hdata
        exact absurd hdata (by simp)

/-- The donor document is generated iff the resolved donor column exists
and has at least one non-missing value. -/
theorem create_gongde_file_isSome (df : DataFrame) (kws : List String)
    (hk : ∀ k ∈ kws, ¬ k = "") (noteCol : Option String) (ts : String) :
    (create_gongde_file df (find_matching_column df kws) noteCol ts).isSome = true ↔
      ∃ c, find_matching_column df kws = some c ∧
        (df.col c).any Option.isSome = true := by
  cases hc : find_matching_column df kws with
  | none => simp [create_gongde_file]
  | some c =>
    have hne := find_matching_column_ne_empty df kws hk c hc
    simp only [create_gongde_file, hne, Bool.false_eq_true, if_false]
    by_cases hA : (df.col c).any Option.isSome = true
    · simp only [hA]
      constructor
      · intro _
        exact ⟨c, rfl, hA⟩
      · intro _
        rfl
    · simp only [Bool.not_eq_true] at hA
      simp only [hA]
      constructor
      · intro hfalse
        exact absurd hfalse (by simp)
      · rintro ⟨c2, hc2, hdata⟩
        rw [← Option.some_inj.mp hc2] at hdata
        rw [hA] at hdata
        exact absurd hdata (by simp)

theorem read_excel_file_headers (df : DataFrame) :
    (read_excel_file df).headers = df.headers := by
  unfold read_excel_file
  split <;> rfl

theorem word_step_gongde_none (df : DataFrame) (v : ActivityCols) (ts : String)
    (h : colHasData df v.gongde = false) :
    (word_step df v ts).lookup "gongde" = none := by
  simp only [word_step, h, Bool.false_and, Bool.false_eq_true, if_false,
    List.append_nil]
  split
  · split
    · rfl
    · rfl
  · split
    · rfl
    · rfl

theorem participant_step_gongde_none (df : DataFrame) (ts : String) (e : Bool) :
    (participant_step df ts e).lookup "gongde" = none := by
  unfold participant_step
  split
  · split
    · rfl
    · rfl
  · rfl

theorem process_pre_ok (req : Request) (f : UploadFile) (raw : DataFrame)
    (dv : DataFrame × ActivityCols)
    (hf : req.file = some f) (hc : f.content = some raw)
    (h : process_pre req = Except.ok dv) :
    dv = (read_excel_file raw, validate_activity_cols (read_excel_file raw)) := by
  simp only [process_pre, hf, hc] at h
  split at h
  · exact Except.noConfusion h
  · split at h
    · exact Except.noConfusion h
    · split at h
      · exact Except.noConfusion h
      · split at h
        · exact Except.noConfusion h
        · split at h
          · exact Except.noConfusion h
          · exact (Except.ok.inj h).symm

/-- **C4.** Each optional artifact is generated iff its resolved column
exists and has at least one non-missing value; in particular, when the
donor column resolves but every value in it is missing, the success
response omits the `gongde` (donor) key. -/
theorem optional_artifact_generation :
    (∀ (df : DataFrame) (ft ts pfx : String),
      (create_content_file df (find_matching_column df ["祈福牌位"])
          ft ts pfx).isSome = true ↔
        ∃ c, find_matching_column df ["祈福牌位"] = some c ∧
          (df.col c).any Option.isSome = true) ∧
    (∀ (df : DataFrame) (ft ts pfx : String),
      (create_content_file df (find_matching_column df ["超薦牌位", "超渡牌位"])
          ft ts pfx).isSome = true ↔
        ∃ c, find_matching_column df ["超薦牌位", "超渡牌位"] = some c ∧
          (df.col c).any Option.isSome = true) ∧
    (∀ (df : DataFrame) (noteCol : Option String) (ts : String),
      (create_gongde_file df (find_matching_column df ["功德主"])
          noteCol ts).isSome = true ↔
        ∃ c, find_matching_column df ["功德主"] = some c ∧
          (df.col c).any Option.isSome = true) ∧
    (∀ (req : Request) (f : UploadFile) (raw : DataFrame) (ts : String)
        (excelOk : Bool) (resp : Response),
      req.file = some f → f.content = some raw →
      truthy (validate_activity_cols (read_excel_file raw)).gongde = true →
      colHasData (read_excel_file raw)
        (validate_activity_cols (read_excel_file raw)).gongde = false →
      process_excel req ts true excelOk = Except.ok resp →
      resp.files.lookup "gongde" = none) := by
  refine ⟨fun df ft ts pfx =>
      create_content_file_isSome df ["祈福牌位"] (by decide) ft ts pfx,
    fun df ft ts pfx =>
      create_content_file_isSome df ["超薦牌位", "超渡牌位"] (by decide) ft ts pfx,
    fun df noteCol ts =>
      create_gongde_file_isSome df ["功德主"] (by decide) noteCol ts,
    ?_⟩
  intro req f raw ts excelOk resp hf hc _hpresent hempty hok
  unfold process_excel at hok
  cases hp : process_pre req with
  | error e =>
    rw [hp] at hok
    exact Except.noConfusion hok
  | ok dv =>
    rw [hp] at hok
    simp only [Bool.not_true, Bool.false_eq_true, if_false] at hok
    have hdv := process_pre_ok req f raw dv hf hc hp
    rw [← Except.ok.inj hok]
    subst hdv
    show (word_step (read_excel_file raw) (validate_activity_cols (read_excel_file raw)) ts ++
      participant_step (read_excel_file raw) ts excelOk).lookup "gongde" = none
    rw [List.lookup_append, word_step_gongde_none _ _ _ hempty,
      participant_step_gongde_none]
    rfl

/-- Witness for C4: for `reqC4w` the donor column 功德主 is present but all
its values are missing; the request succeeds and the response lacks the
`gongde` key. -/
theorem optional_artifact_generation_witness :
    reqC4w.file = some fileC4w ∧ fileC4w.content = some dfC4w ∧
    truthy (validate_activity_cols (read_excel_file dfC4w)).gongde = true ∧
    colHasData (read_excel_file dfC4w)
      (validate_activity_cols (read_excel_file dfC4w)).gongde = false ∧
    process_excel reqC4w "t" true true = Except.ok respC4w ∧
    respC4w.files.lookup "gongde" = none :=
  ⟨rfl, rfl, by decide, by decide, by decide,
    optional_artifact_generation.2.2.2 reqC4w fileC4w dfC4w "t" true respC4w rfl rfl
      (by decide) (by decide) (by decide)⟩

/-- **C7.** A missing required base column aborts the request — no document
is generated, the result is the schema error — and the error carries
exactly the missing column names. -/
theorem missing_columns_abort (req : Request) (f : UploadFile) (raw : DataFrame)
    (ts : String) (wordOk excelOk : Bool)
    (hf : req.file = some f) (hn : ¬ f.filename = "") (hc : f.content = some raw)
    (hmiss : ¬ missing_base_columns (read_excel_file raw) = []) :
    process_excel req ts wordOk excelOk =
      Except.error (ProcErr.missingColumns
        (missing_base_columns (read_excel_file raw))) ∧
    (∀ col, col ∈ missing_base_columns (read_excel_file raw) ↔
      (col ∈ required_base_columns ∧ ¬ col ∈ raw.headers)) := by
  constructor
  · have hpre : process_pre req =
        Except.error (ProcErr.missingColumns
          (missing_base_columns (read_excel_file raw))) := by
      simp only [process_pre, hf, hc]
      rw [if_neg (by simp [hn])]
      rw [if_pos (by simp [hmiss])]
    unfold process_excel
    rw [hpre]
  · intro col
    simp only [missing_base_columns, List.mem_filter, read_excel_file_headers]
    constructor
    · rintro ⟨h1, h2⟩
      refine ⟨h1, fun hmem => ?_⟩
      rw [Bool.not_eq_true'] at h2
      have h2b : List.elem col raw.headers = false := h2
      rw [List.elem_iff.mpr hmem] at h2b
      exact Bool.true_eq_false.mp h2b
    · rintro ⟨h1, h2⟩
      refine ⟨h1, ?_⟩
      rw [Bool.not_eq_true']
      show List.elem col raw.headers = false
      cases hcb : List.elem col raw.headers with
      | false => rfl
      | true => exact absurd (List.elem_iff.mp hcb) h2

/-- Witness for C7: `dfC7w` lacks Email and 行動電話; the request aborts
with the schema error enumerating the two missing names. -/
theorem missing_columns_abort_witness :
    reqC7w.file = some fileC7w ∧ ¬ fileC7w.filename = "" ∧
    fileC7w.content = some dfC7w ∧
    ¬ missing_base_columns (read_excel_file dfC7w) = [] ∧
    process_excel reqC7w "t" true true =
      Except.error (ProcErr.missingColumns
        (missing_base_columns (read_excel_file dfC7w))) ∧
    missing_base_columns (read_excel_file dfC7w) = ["Email", "行動電話"] :=
  ⟨rfl, by decide, rfl, by decide,
    (missing_columns_abort reqC7w fileC7w dfC7w "t" true true rfl (by decide)
      rfl (by decide)).1,
    by decide⟩

theorem word_step_keys (df : DataFrame) (v : ActivityCols) (ts : String) :
    ∀ kv ∈ word_step df v ts,
      kv.1 = "xiazai" ∨ kv.1 = "chaojian" ∨ kv.1 = "gongde" := by
  intro kv hkv
  simp only [word_step] at hkv
  rw [List.mem_append, List.mem_append] at hkv
  rcases hkv with (h | h) | h
  · left
    split at h
    · rw [List.mem_singleton] at h
      rw [h]
    · exact absurd h (List.not_mem_nil kv)
  · right
    left
    split at h
    · rw [List.mem_singleton] at h
      rw [h]
    · exact absurd h (List.not_mem_nil kv)
  · right
    right
    split at h
    · rw [List.mem_singleton] at h
      rw [h]
    · exact absurd h (List.not_mem_nil kv)

theorem word_step_filter_participant (df : DataFrame) (v : ActivityCols)
    (ts : String) :
    (word_step df v ts).filter (fun kv => !(kv.1 == "participant")) =
      word_step df v ts := by
  apply List.filter_eq_self.mpr
  intro kv hkv
  rcases word_step_keys df v ts kv hkv with h | h | h <;> simp [h]

theorem participant_step_filter (df : DataFrame) (ts : String) (e : Bool) :
    (participant_step df ts e).filter (fun kv => !(kv.1 == "participant")) = [] := by
  unfold participant_step
  split
  · split
    · rfl
    · rfl
  · rfl

/-- **C6, counterexample.** For `reqC6`, whose upload would produce both a
ceremony document and a participant roster, a failure in the ceremony
(Word) block aborts the whole request — the participant roster that would
otherwise be produced (second conjunct) is not generated, contradicting
the claim that a ceremony failure does not prevent the participant
roster. -/
theorem ceremony_failure_blocks_participant :
    process_excel reqC6 "t" false true = Except.error ProcErr.wordFail ∧
    (process_excel reqC6 "t" true true).toOption.map
      (fun r => (r.files.lookup "participant").isSome) = some true := by
  decide

/-- **C6, amended.** A participant-roster failure is caught independently:
it never changes the error status or the ceremony entries of the response
(the result merely lacks the `participant` entry).  A ceremony (Word)
failure, however, is re-raised: the request fails as a whole and the
participant roster is not generated either — with the Word block failing,
the outcome does not depend on whether the participant step would
succeed. -/
theorem error_isolation_amended :
    (∀ (req : Request) (ts : String) (wordOk : Bool),
      process_excel req ts wordOk false =
        (process_excel req ts wordOk true).map
          (fun resp =>
            { files := resp.files.filter (fun kv => !(kv.1 == "participant")) })) ∧
    (∀ (req : Request) (ts : String) (e1 e2 : Bool),
      process_excel req ts false e1 = process_excel req ts false e2) := by
  constructor
  · intro req ts wordOk
    unfold process_excel
    cases hp : process_pre req with
    | error e => rfl
    | ok dv =>
      cases wordOk with
      | false => rfl
      | true =>
        simp only [Bool.not_true, Bool.false_eq_true, if_false, Except.map]
        congr 1
        congr 1
        rw [List.filter_append, word_step_filter_participant,
          participant_step_filter, List.append_nil]
        rw [show participant_step dv.1 ts false = [] from rfl, List.append_nil]
  · intro req ts e1 e2
    unfold process_excel
    cases process_pre req <;> rfl

/-- Witness for the amended C10 at a concrete upload: the hypothesis holds
and the document's paragraphs are exactly the formatted lines of the rows
with a non-missing content cell. -/
theorem content_paragraphs_sanitized_witness :
    create_content_file dfC10w (some "內容") "消災牌位" "t" "" =
      some (docBody dfC10w "內容" "", "消災牌位" ++ "_" ++ "t" ++ ".docx") ∧
    paraTexts (docBody dfC10w "內容" "") =
      (dfC10w.rows.filter (fun r => (r.get "內容").isSome)).map
        (format_row_content "內容" "") :=
  ⟨by decide,
    (content_paragraphs_sanitized dfC10w "內容" "消災牌位" "t" ""
      (docBody dfC10w "內容" "", "消災牌位" ++ "_" ++ "t" ++ ".docx")
      (by decide)).1⟩

end PemaList
